import Mathlib

/-!
Verification development for the feedback-board frontend's session-lifecycle
and optimistic-mutation code.

Shallow embedding of:
- TokenManager (src/interview/frontend/src/utils/authEvents.ts, second module):
  decodeToken, getTokenExpiry, getTimeUntilExpiry, isTokenExpired,
  startMonitoring, and the logout-countdown behaviour of handleTokenExpiry /
  showLogoutCountdown.
- AuthEventEmitter (same file, first module): on, emit, unsubscribe.
- StorageService (src/interview/frontend/src/utils/storage.ts, appearing in the
  concatenated types/feedback.ts source): checkAvailability, getItem, setItem,
  removeItem, clear.
- The axios response interceptor of src/interview/frontend/src/services/api.ts.
- handleUpvoteFeedback of the App component (src/unnamed/part_004).

Machine integers of the source are JavaScript numbers used only at integral
values here, so they are embedded as Int; time is Unix milliseconds as Int.
JavaScript exceptions are embedded as Except Unit; JavaScript falsiness checks
on strings/numbers are made explicit at each use site.
-/

/-! ### TokenManager: token decoding -/

/-- Claim set carried by the payload segment of a JWT.  Mirrors the TS
interface TokenPayload; exp is Option so that a JSON payload lacking the
expiresAt claim is representable (the source reads a possibly-absent field). -/
structure TokenPayload where
  exp : Option Int
  sub : String
  iat : Int
deriving DecidableEq, Repr

/-- Result of base64-decoding and JSON-parsing one dot-separated segment of a
token string: either it raises in atob/JSON.parse (malformed) or it yields a
claim set. -/
inductive SegDecode where
  | malformed
  | ok (payload : TokenPayload)
deriving DecidableEq, Repr

/-- A bearer-token string, abstracted to the list of its dot-separated
segments together with what each segment decodes to.  An empty token string
splits into a single segment, so the source's falsiness guard on the raw
string is subsumed by the three-segment length check. -/
structure Token where
  parts : List SegDecode
deriving DecidableEq, Repr

/-- decodeToken of TokenManager: returns null unless the token has exactly
three segments and the payload segment (index 1) parses; atob/JSON.parse
exceptions are caught and collapsed to null. -/
def decodeToken (t : Token) : Option TokenPayload :=
  if t.parts.length ≠ 3 then none
  else
    match t.parts[1]? with
    | some (SegDecode.ok payload) => some payload
    | _ => none

/-- getTokenExpiry of TokenManager: null when decoding fails or the exp claim
is JS-falsy (absent or 0); otherwise exp converted from Unix seconds to
milliseconds. -/
def getTokenExpiry (t : Token) : Option Int :=
  match decodeToken t with
  | none => none
  | some payload =>
      match payload.exp with
      | none => none
      | some e => if e = 0 then none else some (e * 1000)

/-- getTimeUntilExpiry of TokenManager: expiry minus the current time, with
the source's falsiness guard on the expiry value (an expiry of exactly 0 ms
is treated as null; unreachable given getTokenExpiry, kept for fidelity). -/
def getTimeUntilExpiry (t : Token) (now : Int) : Option Int :=
  match getTokenExpiry t with
  | none => none
  | some expiry => if expiry = 0 then none else some (expiry - now)

/-- isTokenExpired of TokenManager: true when the time until expiry is null
or nonpositive. -/
def isTokenExpired (t : Token) (now : Int) : Bool :=
  match getTimeUntilExpiry t now with
  | none => true
  | some d => d ≤ 0

/-! ### TokenManager: monitoring timers -/

/-- TokenExpiryConfig of the source, minutes/seconds fields. -/
structure TokenExpiryConfig where
  warningMinutes : Nat
  refreshMinutes : Nat
  logoutCountdownSeconds : Nat
deriving DecidableEq, Repr

/-- Defaults from the TokenManager constructor: warn 5 minutes before expiry,
refresh 2 minutes before expiry, 30 second logout countdown. -/
def defaultConfig : TokenExpiryConfig :=
  { warningMinutes := 5, refreshMinutes := 2, logoutCountdownSeconds := 30 }

/-- Timers scheduled by startMonitoring, as optional delays in milliseconds
from the moment startMonitoring runs (None means the timer was not set). -/
structure Timers where
  warningTimer : Option Int
  refreshTimer : Option Int
  logoutTimer : Option Int
deriving DecidableEq, Repr

/-- startMonitoring of TokenManager: after the implicit stopMonitoring, an
expired (or undecodable, or empty) token schedules nothing; otherwise the
warning and refresh timers are set only when the remaining lifetime strictly
exceeds their windows, and the logout timer is always set at the remaining
lifetime.  The source's falsy re-check of timeUntilExpiry is the `ttl = 0`
branch. -/
def startMonitoring (cfg : TokenExpiryConfig) (t : Token) (now : Int) : Timers :=
  if isTokenExpired t now then ⟨none, none, none⟩
  else
    match getTimeUntilExpiry t now with
    | none => ⟨none, none, none⟩
    | some ttl =>
        if ttl = 0 then ⟨none, none, none⟩
        else
          let warningTime : Int := (cfg.warningMinutes : Int) * 60 * 1000
          let refreshTime : Int := (cfg.refreshMinutes : Int) * 60 * 1000
          { warningTimer := if ttl > warningTime then some (ttl - warningTime) else none
            refreshTimer := if ttl > refreshTime then some (ttl - refreshTime) else none
            logoutTimer := some ttl }

/-- updateCountdownFire: the absolute time at which the recursive
updateCountdown loop of showLogoutCountdown invokes onTokenExpiry, when first
entered at time t with the given countdown value.  The source displays the
current value, decrements, fires once the value passes below zero, and
otherwise re-arms itself one second later. -/
def updateCountdownFire (countdown : Nat) (t : Int) : Int :=
  match countdown with
  | 0 => t
  | n + 1 => updateCountdownFire n (t + 1000)

/-- Observable timeline of one startMonitoring call: absolute times at which
each behaviour of the TokenManager runs, and whether any event is published
on the auth event emitter.  warningAt is when showExpiryWarning runs,
refreshAttemptAt when attemptTokenRefresh runs, refreshCallbackAt when
onTokenRefresh is invoked (only if one is set), modalAt when handleTokenExpiry
shows the logout countdown (only if onTokenExpiry is set: it returns early
otherwise), expiryCallbackAt when onTokenExpiry is invoked (at the end of the
countdown).  The TokenManager never calls authEvents.emit anywhere, so
expiredEventPublished is constantly false. -/
structure MonitorRun where
  warningAt : Option Int
  refreshAttemptAt : Option Int
  refreshCallbackAt : Option Int
  modalAt : Option Int
  expiryCallbackAt : Option Int
  expiredEventPublished : Bool
deriving DecidableEq, Repr

/-- monitorRun: the timeline determined by startMonitoring at time now, for a
manager whose refresh/expiry callbacks are set or not. -/
def monitorRun (cfg : TokenExpiryConfig) (t : Token) (now : Int)
    (hasRefreshCb hasExpiryCb : Bool) : MonitorRun :=
  let tm := startMonitoring cfg t now
  { warningAt := tm.warningTimer.map (fun d => now + d)
    refreshAttemptAt := tm.refreshTimer.map (fun d => now + d)
    refreshCallbackAt := if hasRefreshCb then tm.refreshTimer.map (fun d => now + d) else none
    modalAt := if hasExpiryCb then tm.logoutTimer.map (fun d => now + d) else none
    expiryCallbackAt :=
      if hasExpiryCb then
        tm.logoutTimer.map (fun d => updateCountdownFire cfg.logoutCountdownSeconds (now + d))
      else none
    expiredEventPublished := false }

theorem updateCountdownFire_eq (n : Nat) (t : Int) :
    updateCountdownFire n t = t + n * 1000 := by
  induction n generalizing t with
  | zero => simp [updateCountdownFire]
  | succ k ih =>
      rw [updateCountdownFire, ih]
      push_cast
      ring

/-! ### AuthEventEmitter -/

/-- Handler registered with the AuthEventEmitter, identified (as a JS function
reference is) by an id, together with its effect when invoked.  The claims
under scrutiny only exercise handlers whose effect is to unsubscribe handlers
of the kind being emitted, so the effect is embedded as the list of handler
ids the handler deletes from that kind's set. -/
structure Handler where
  id : Nat
  unsubs : List Nat
deriving DecidableEq, Repr

/-- emitSet models Set.forEach over the live handler set of one event kind:
the first component is the insertion-order worklist (the set as it was when
emit began), the second the current set, the third the accumulated invocation
log (reversed).  An element removed from the current set before its turn is
skipped, exactly as a JS Set iterator skips deleted entries; handler effects
delete the entries named in unsubs. -/
def emitSet : List Handler → List Handler → List Nat → List Handler × List Nat
  | [], cur, log => (cur, log.reverse)
  | h :: rest, cur, log =>
      if cur.any (fun x => x.id == h.id) then
        emitSet rest (cur.filter (fun x => !(h.unsubs.contains x.id))) (h.id :: log)
      else
        emitSet rest cur log

/-- AuthEventEmitter state: the handlers map, kind by kind, each kind's
handlers in insertion order (a JS Set iterates in insertion order). -/
structure AuthEventEmitter where
  handlers : List (String × List Handler)
deriving DecidableEq, Repr

/-- addToKind: the `on` path that creates the kind's set if absent and adds
the handler; Set.add is a no-op for an already-present element. -/
def addToKind : List (String × List Handler) → String → Handler → List (String × List Handler)
  | [], ev, h => [(ev, [h])]
  | (k, hs) :: rest, ev, h =>
      if k == ev then
        (k, if hs.any (fun x => x.id == h.id) then hs else hs ++ [h]) :: rest
      else
        (k, hs) :: addToKind rest ev h

/-- AuthEventEmitter.on. -/
def AuthEventEmitter.on (em : AuthEventEmitter) (ev : String) (h : Handler) :
    AuthEventEmitter :=
  ⟨addToKind em.handlers ev h⟩

/-- removeFromKind: the unsubscribe closure returned by `on`, which deletes
the handler from the kind's set when that set exists. -/
def removeFromKind : List (String × List Handler) → String → Nat → List (String × List Handler)
  | [], _, _ => []
  | (k, hs) :: rest, ev, i =>
      if k == ev then
        (k, hs.filter (fun x => !(x.id == i))) :: rest
      else
        (k, hs) :: removeFromKind rest ev i

/-- AuthEventEmitter.unsubscribe: invoking the unsubscribe closure for
handler id i registered against kind ev. -/
def AuthEventEmitter.unsubscribe (em : AuthEventEmitter) (ev : String) (i : Nat) :
    AuthEventEmitter :=
  ⟨removeFromKind em.handlers ev i⟩

/-- getKind: the handler set currently registered for a kind (empty when the
kind has no entry, in which case emit does nothing). -/
def getKind (em : AuthEventEmitter) (ev : String) : List Handler :=
  match em.handlers.find? (fun p => p.1 == ev) with
  | some p => p.2
  | none => []

/-- setKind: write back a kind's handler set after a delivery pass. -/
def setKind : List (String × List Handler) → String → List Handler → List (String × List Handler)
  | [], _, _ => []
  | (k, hs) :: rest, ev, hs' =>
      if k == ev then (k, hs') :: rest
      else (k, hs) :: setKind rest ev hs'

/-- AuthEventEmitter.emit: looks up the kind's set and runs the forEach pass
over it; returns the emitter afterwards and the ids invoked, in order. -/
def AuthEventEmitter.emit (em : AuthEventEmitter) (ev : String) :
    AuthEventEmitter × List Nat :=
  match em.handlers.find? (fun p => p.1 == ev) with
  | none => (em, [])
  | some p =>
      let r := emitSet p.2 p.2 []
      (⟨setKind em.handlers ev r.1⟩, r.2)

theorem emitSet_all_present (s : List Handler) (hu : ∀ h ∈ s, h.unsubs = []) :
    ∀ rest log, (∀ h ∈ rest, h ∈ s) →
      emitSet rest s log = (s, log.reverse ++ rest.map (fun h => h.id)) := by
  intro rest
  induction rest with
  | nil => intro log _; simp [emitSet]
  | cons h rest ih =>
      intro log hsub
      have hmem : h ∈ s := hsub h (List.mem_cons_self h rest)
      have hany : s.any (fun x => x.id == h.id) = true := by
        rw [List.any_eq_true]
        exact ⟨h, hmem, by simp⟩
      have hfilter : s.filter (fun x => !((h.unsubs).contains x.id)) = s := by
        rw [List.filter_eq_self]
        intro a _
        rw [hu h hmem]
        simp
      rw [emitSet, hany, if_pos rfl, hfilter,
        ih (h.id :: log) (fun x hx => hsub x (List.mem_cons_of_mem h hx))]
      simp

theorem emitSet_log_mem :
    ∀ rest cur log (x : Nat), x ∈ (emitSet rest cur log).2 → x ∈ log ∨ x ∈ rest.map (fun h => h.id) := by
  intro rest
  induction rest with
  | nil => intro cur log x hx; simp [emitSet] at hx; exact Or.inl hx
  | cons h rest ih =>
      intro cur log x hx
      rw [emitSet] at hx
      by_cases hc : cur.any (fun y => y.id == h.id) = true
      · rw [if_pos hc] at hx
        rcases ih _ _ _ hx with hl | hr
        · rcases List.mem_cons.mp hl with he | hl'
          · exact Or.inr (by simp [he])
          · exact Or.inl hl'
        · exact Or.inr (List.mem_cons_of_mem _ hr)
      · rw [if_neg hc] at hx
        rcases ih _ _ _ hx with hl | hr
        · exact Or.inl hl
        · exact Or.inr (List.mem_cons_of_mem _ hr)

/-! ### StorageService -/

/-- memGet: Map.get on the in-memory assoc list (insertion-keyed; keys are
unique because memSet overwrites in place). -/
def memGet (m : List (String × String)) (k : String) : Option String :=
  (m.find? (fun p => p.1 == k)).map (fun p => p.2)

/-- memSet: Map.set, overwriting an existing entry or appending a new one. -/
def memSet : List (String × String) → String → String → List (String × String)
  | [], k, v => [(k, v)]
  | (k', v') :: rest, k, v =>
      if k' == k then (k, v) :: rest else (k', v') :: memSet rest k v

/-- memErase: Map.delete. -/
def memErase (m : List (String × String)) (k : String) : List (String × String) :=
  m.filter (fun p => !(p.1 == k))

/-- memGetOrNull: the expression `this.memoryStorage.get(key) || null` of the
source, whose JS falsiness coerces an empty-string value to null. -/
def memGetOrNull (m : List (String × String)) (k : String) : Option String :=
  match memGet m k with
  | some v => if v = "" then none else some v
  | none => none

/-- localStorageGetItem: the durable-store read primitive, which either
raises (modelled by the fail flag the environment chooses for this call) or
returns the stored value. -/
def localStorageGetItem (ls : List (String × String)) (fail : Bool) (k : String) :
    Except Unit (Option String) :=
  if fail then Except.error () else Except.ok (memGet ls k)

/-- localStorageSetItem: the durable-store write primitive. -/
def localStorageSetItem (ls : List (String × String)) (fail : Bool) (k v : String) :
    Except Unit (List (String × String)) :=
  if fail then Except.error () else Except.ok (memSet ls k v)

/-- localStorageRemoveItem: the durable-store removal primitive. -/
def localStorageRemoveItem (ls : List (String × String)) (fail : Bool) (k : String) :
    Except Unit (List (String × String)) :=
  if fail then Except.error () else Except.ok (memErase ls k)

/-- StorageService state.  The durable backing store itself is threaded
explicitly through the operations; the adapter holds only the availability
decision and the in-memory fallback map. -/
structure StorageService where
  isAvailable : Bool
  memoryStorage : List (String × String)
deriving DecidableEq, Repr

/-- checkAvailability: the construction-time probe writing then removing the
sentinel key; any raise yields false.  The fail flag covers the probe's
primitive calls. -/
def checkAvailability (ls : List (String × String)) (fail : Bool) :
    Bool × List (String × String) :=
  match localStorageSetItem ls fail "__storage_test__" "__storage_test__" with
  | Except.error _ => (false, ls)
  | Except.ok ls1 =>
      match localStorageRemoveItem ls1 fail "__storage_test__" with
      | Except.error _ => (false, ls1)
      | Except.ok ls2 => (true, ls2)

/-- StorageService.construct: the constructor, creating an empty memory map
and caching the probe's verdict in isAvailable. -/
def StorageService.construct (ls : List (String × String)) (probeFail : Bool) :
    StorageService × List (String × String) :=
  let r := checkAvailability ls probeFail
  ({ isAvailable := r.1, memoryStorage := [] }, r.2)

/-- StorageService.getItem: reads the durable store when available, falling
through to the memory map (with the falsy-to-null coercion) when unavailable
or when the read raises. -/
def StorageService.getItem (s : StorageService) (ls : List (String × String))
    (fail : Bool) (k : String) : Option String :=
  if s.isAvailable then
    match localStorageGetItem ls fail k with
    | Except.ok v => v
    | Except.error _ => memGetOrNull s.memoryStorage k
  else memGetOrNull s.memoryStorage k

/-- StorageService.setItem: writes the durable store when available and
returns; on a raise, or when unavailable, writes the memory map instead.  The
availability flag is never updated here. -/
def StorageService.setItem (s : StorageService) (ls : List (String × String))
    (fail : Bool) (k v : String) : StorageService × List (String × String) :=
  if s.isAvailable then
    match localStorageSetItem ls fail k v with
    | Except.ok ls' => (s, ls')
    | Except.error _ => ({ s with memoryStorage := memSet s.memoryStorage k v }, ls)
  else ({ s with memoryStorage := memSet s.memoryStorage k v }, ls)

/-- StorageService.removeItem: same shape as setItem, with deletion. -/
def StorageService.removeItem (s : StorageService) (ls : List (String × String))
    (fail : Bool) (k : String) : StorageService × List (String × String) :=
  if s.isAvailable then
    match localStorageRemoveItem ls fail k with
    | Except.ok ls' => (s, ls')
    | Except.error _ => ({ s with memoryStorage := memErase s.memoryStorage k }, ls)
  else ({ s with memoryStorage := memErase s.memoryStorage k }, ls)

/-- StorageService.clear: same shape, emptying the chosen store. -/
def StorageService.clear (s : StorageService) (ls : List (String × String))
    (fail : Bool) : StorageService × List (String × String) :=
  if s.isAvailable then
    if fail then ({ s with memoryStorage := [] }, ls) else (s, [])
  else ({ s with memoryStorage := [] }, ls)

theorem memGet_memSet (m : List (String × String)) (k v : String) :
    memGet (memSet m k v) k = some v := by
  induction m with
  | nil => simp [memSet, memGet]
  | cons p rest ih =>
      cases p with
      | mk k' v' =>
          by_cases h : k' = k
          · simp [memSet, h, memGet]
          · have hb : (k' == k) = false := by simp [h]
            have h1 : memSet ((k', v') :: rest) k v = (k', v') :: memSet rest k v := by
              simp [memSet, hb]
            rw [h1, memGet, List.find?_cons_of_neg]
            · rw [memGet] at ih
              exact ih
            · simp [h]

theorem memGet_memErase (m : List (String × String)) (k : String) :
    memGet (memErase m k) k = none := by
  rw [memGet]
  have hfind : (memErase m k).find? (fun p => p.1 == k) = none := by
    rw [List.find?_eq_none]
    intro p hp
    rw [memErase, List.mem_filter] at hp
    simpa using hp.2
  rw [hfind]
  rfl

/-! ### Transport guard: axios response interceptor (services/api.ts) -/

/-- The failure object the response interceptor receives: the response status
when a response exists (error.response?.status) and the rest of the error,
kept opaque. -/
structure AxiosError where
  status : Option Nat
  message : String
deriving DecidableEq, Repr

/-- Everything observable after the error branch of the response interceptor
runs: the storage adapter and its durable store, the event emitter, the
handler ids invoked during the emit, and the value handed to the caller via
Promise.reject. -/
structure GuardResult where
  svc : StorageService
  ls : List (String × String)
  bus : AuthEventEmitter
  invoked : List Nat
  propagated : AxiosError
deriving Repr

/-- responseInterceptorOnError: the rejection handler installed by
api.interceptors.response.use.  On a 401 status it removes auth_token through
the storage adapter and emits the unauthorized event, and in every case it
returns Promise.reject with the original error object. -/
def responseInterceptorOnError (e : AxiosError) (svc : StorageService)
    (ls : List (String × String)) (failRemove : Bool) (bus : AuthEventEmitter) :
    GuardResult :=
  if e.status = some 401 then
    let r := StorageService.removeItem svc ls failRemove "auth_token"
    let b := AuthEventEmitter.emit bus "unauthorized"
    { svc := r.1, ls := r.2, bus := b.1, invoked := b.2, propagated := e }
  else
    { svc := svc, ls := ls, bus := bus, invoked := [], propagated := e }

theorem getItem_after_removeItem (s : StorageService) (ls : List (String × String))
    (k : String) :
    StorageService.getItem (StorageService.removeItem s ls false k).1
      (StorageService.removeItem s ls false k).2 false k = none := by
  by_cases h : s.isAvailable
  · simp [StorageService.removeItem, StorageService.getItem, localStorageRemoveItem,
      localStorageGetItem, h, memGet_memErase]
  · simp only [Bool.not_eq_true] at h
    simp [StorageService.removeItem, StorageService.getItem, h, memGetOrNull,
      memGet_memErase]

/-! ### Optimistic upvote handling (handleUpvoteFeedback of the App component) -/

/-- Feedback cache entry, restricted to the fields handleUpvoteFeedback reads
or writes plus one carried-along field witnessing the object spread. -/
structure Feedback where
  id : Nat
  text : String
  upvotes : Int
  has_upvoted : Bool
deriving DecidableEq, Repr

/-- Server payload of POST /feedback/id/upvote, per the UpvoteResponse
interface. -/
structure UpvoteResponse where
  id : Nat
  upvotes : Int
  has_upvoted : Bool
  message : String
deriving DecidableEq, Repr

/-- upvoteStart: the synchronous prefix of handleUpvoteFeedback, up to the
await of the upvote request.  Finds the target (early return yields none for
an unknown id), snapshots it in the closure, applies the optimistic toggle to
the cache, and clears the error banner (the setError call at the top of the
try block).  Returns the closure snapshot, the optimistic cache and the new
error banner. -/
def upvoteStart (cache : List Feedback) (id : Nat) :
    Option (Feedback × List Feedback × String) :=
  match cache.find? (fun f => f.id == id) with
  | none => none
  | some targetFeedback =>
      let wasUpvoted := targetFeedback.has_upvoted
      let optimisticUpvotes :=
        if wasUpvoted then targetFeedback.upvotes - 1 else targetFeedback.upvotes + 1
      some (targetFeedback,
        cache.map (fun feedback =>
          if feedback.id == id then
            { feedback with upvotes := optimisticUpvotes, has_upvoted := !wasUpvoted }
          else feedback),
        "")

/-- upvoteSettle: the continuation of handleUpvoteFeedback after the request
settles, applied to the cache current at that moment (setFeedbacks uses
functional updates).  Success overwrites the target's count and flag with the
server response; failure restores them from the closure snapshot and sets the
error banner. -/
def upvoteSettle (targetFeedback : Feedback) (id : Nat)
    (result : Except Unit UpvoteResponse) (cache : List Feedback) (err : String) :
    List Feedback × String :=
  match result with
  | Except.ok response =>
      (cache.map (fun feedback =>
        if feedback.id == id then
          { feedback with upvotes := response.upvotes, has_upvoted := response.has_upvoted }
        else feedback),
       err)
  | Except.error _ =>
      (cache.map (fun feedback =>
        if feedback.id == id then
          { feedback with upvotes := targetFeedback.upvotes,
                          has_upvoted := targetFeedback.has_upvoted }
        else feedback),
       "Failed to upvote feedback. Please try again.")

/-- Result of one whole handleUpvoteFeedback invocation with no overlapping
mutation: the final cache, the final error banner, and whether the returned
promise rejected.  The source async function has no throw and no rethrow in
its catch, so the promise always resolves. -/
structure UpvoteRun where
  feedbacks : List Feedback
  error : String
  rejected : Bool
deriving DecidableEq, Repr

/-- handleUpvoteFeedback run in isolation: the synchronous prefix followed by
the settle continuation on the given request outcome. -/
def handleUpvoteFeedback (cache : List Feedback) (err : String) (id : Nat)
    (result : Except Unit UpvoteResponse) : UpvoteRun :=
  match upvoteStart cache id with
  | none => ⟨cache, err, false⟩
  | some (targetFeedback, c1, e1) =>
      let r := upvoteSettle targetFeedback id result c1 e1
      ⟨r.1, r.2, false⟩

/-- raceRun: two handleUpvoteFeedback invocations on the same id issued in
immediate succession (the second's synchronous prefix runs on the first's
optimistic cache), whose responses arrive in reverse order: the second
toggle's response settles first, then the first toggle's. -/
def raceRun (cache : List Feedback) (id : Nat)
    (respFirst respSecond : UpvoteResponse) : Option (List Feedback × String) :=
  match upvoteStart cache id with
  | none => none
  | some (snapA, c1, _e1) =>
      match upvoteStart c1 id with
      | none => none
      | some (snapB, c2, e2) =>
          let s1 := upvoteSettle snapB id (Except.ok respSecond) c2 e2
          let s2 := upvoteSettle snapA id (Except.ok respFirst) s1.1 s1.2
          some s2

theorem mem_settle_ok (targetFeedback : Feedback) (id : Nat) (r : UpvoteResponse)
    (cache : List Feedback) (err : String) :
    ∀ f ∈ (upvoteSettle targetFeedback id (Except.ok r) cache err).1,
      f.id = id → f.upvotes = r.upvotes ∧ f.has_upvoted = r.has_upvoted := by
  intro f hf hid
  rw [upvoteSettle] at hf
  simp only [List.mem_map] at hf
  obtain ⟨g, _, hg⟩ := hf
  by_cases h : g.id = id
  · rw [← hg]
    simp [h]
  · rw [← hg] at hid
    have hb : (g.id == id) = false := by simp [h]
    rw [hb] at hid
    simp at hid
    exact absurd hid h

theorem mem_settle_error (targetFeedback : Feedback) (id : Nat)
    (cache : List Feedback) (err : String) :
    ∀ f ∈ (upvoteSettle targetFeedback id (Except.error ()) cache err).1,
      f.id = id →
        f.upvotes = targetFeedback.upvotes ∧ f.has_upvoted = targetFeedback.has_upvoted := by
  intro f hf hid
  rw [upvoteSettle] at hf
  simp only [List.mem_map] at hf
  obtain ⟨g, _, hg⟩ := hf
  by_cases h : g.id = id
  · rw [← hg]
    simp [h]
  · rw [← hg] at hid
    have hb : (g.id == id) = false := by simp [h]
    rw [hb] at hid
    simp at hid
    exact absurd hid h

/-! ### Concrete fixtures -/

/-- Payload of a token expiring at Unix second 600.  Header and signature
segments are never decoded by the source, so their decode results are
irrelevant and set to malformed. -/
def tok600 : Token :=
  ⟨[SegDecode.malformed, SegDecode.ok ⟨some 600, "user-1", 0⟩, SegDecode.malformed]⟩

/-- Well-formed token expiring at Unix second 1 (1000 ms). -/
def tokExpired : Token :=
  ⟨[SegDecode.malformed, SegDecode.ok ⟨some 1, "user-1", 0⟩, SegDecode.malformed]⟩

/-- Token with only two dot-separated segments. -/
def tokTwoParts : Token := ⟨[SegDecode.malformed, SegDecode.malformed]⟩

/-! ### C9: malformed credentials are treated as expired -/

/-- C9: for every malformed credential — not three dot-separated segments,
payload segment not decodable, or claims missing expiresAt — getTokenExpiry
yields null and isTokenExpired returns true; decoding failure is collapsed
into "treat as expired" rather than raised (decodeToken is total and
Option-valued: the source catches its exceptions). -/
theorem malformedToken_isExpired (t : Token) (now : Int)
    (h : t.parts.length ≠ 3
       ∨ t.parts[1]? = some SegDecode.malformed
       ∨ (∃ p, t.parts[1]? = some (SegDecode.ok p) ∧ p.exp = none)) :
    getTokenExpiry t = none ∧ isTokenExpired t now = true := by
  have hexp : getTokenExpiry t = none := by
    rcases h with h | h | ⟨p, hp, hmiss⟩
    · rw [getTokenExpiry, decodeToken, if_pos h]
    · rw [getTokenExpiry, decodeToken]
      by_cases hl : t.parts.length ≠ 3
      · rw [if_pos hl]
      · rw [if_neg hl, h]
    · rw [getTokenExpiry, decodeToken]
      by_cases hl : t.parts.length ≠ 3
      · rw [if_pos hl]
      · rw [if_neg hl, hp]
        simp [hmiss]
  refine ⟨hexp, ?_⟩
  rw [isTokenExpired, getTimeUntilExpiry, hexp]

/-- Witness for C9 at a concrete two-segment token. -/
theorem malformedToken_isExpired_witness :
    getTokenExpiry tokTwoParts = none ∧ isTokenExpired tokTwoParts 0 = true :=
  malformedToken_isExpired tokTwoParts 0 (Or.inl (by decide))

/-! ### C3: starting the monitor on an already-expired credential -/

/-- C3 (amended): for a credential whose decoded expiresAt lies in the past,
isTokenExpired returns true and startMonitoring returns without scheduling
any of the three timers; contrary to the original claim, nothing transitions
to an Expired state and no expiry behaviour fires — startMonitoring simply
returns, so the whole timeline is empty and no event is published. -/
theorem expiredToken_start_schedules_nothing (t : Token) (now e : Int)
    (cfg : TokenExpiryConfig) (hR hE : Bool)
    (h : getTokenExpiry t = some e) (he : e ≤ now) :
    isTokenExpired t now = true ∧
    startMonitoring cfg t now = ⟨none, none, none⟩ ∧
    monitorRun cfg t now hR hE = ⟨none, none, none, none, none, false⟩ := by
  have hg : getTimeUntilExpiry t now = if e = 0 then none else some (e - now) := by
    rw [getTimeUntilExpiry, h]
  have h1 : isTokenExpired t now = true := by
    rw [isTokenExpired, hg]
    by_cases h0 : e = 0
    · rw [if_pos h0]
    · rw [if_neg h0]
      simp only [decide_eq_true_eq]
      omega
  have h2 : startMonitoring cfg t now = ⟨none, none, none⟩ := by
    rw [startMonitoring, h1]
    simp
  refine ⟨h1, h2, ?_⟩
  rw [monitorRun, h2]
  cases hR <;> cases hE <;> rfl

/-- Witness for C3 (amended) at the concrete expired token, 1 second past
expiry at the default configuration. -/
theorem expiredToken_start_schedules_nothing_witness :
    isTokenExpired tokExpired 2000 = true ∧
    startMonitoring defaultConfig tokExpired 2000 = ⟨none, none, none⟩ ∧
    monitorRun defaultConfig tokExpired 2000 true true
      = ⟨none, none, none, none, none, false⟩ :=
  expiredToken_start_schedules_nothing tokExpired 2000 1000 defaultConfig true true
    (by decide) (by decide)

/-- Counterexample to C3 as stated: for the expired token the claim demands
that start fires the expiry behaviour immediately, but even with an expiry
callback installed the timeline records no callback invocation and no
published event. -/
theorem expiredToken_no_expiry_fire :
    isTokenExpired tokExpired 2000 = true ∧
    (monitorRun defaultConfig tokExpired 2000 true true).expiryCallbackAt = none ∧
    (monitorRun defaultConfig tokExpired 2000 true true).expiredEventPublished = false :=
  ⟨by decide, by decide, by decide⟩

/-! ### C2: ten-minute credential with default windows -/

/-- C2 (amended): for a credential expiring 10 minutes from now under the
default windows, the warning behaviour fires at t = 5 min and the refresh
attempt (and refresh callback) at t = 8 min as claimed; but at t = 10 min the
manager only shows the logout countdown modal — no expired event is ever
published, and the expiry callback is invoked at t = 10 min plus the 30 s
logout countdown, i.e. t = 10 min 30 s, not at t = 10 min. -/
theorem tenMinuteToken_timeline (t : Token) (now : Int) (hn : 0 ≤ now)
    (h : getTokenExpiry t = some (now + 600000)) :
    monitorRun defaultConfig t now true true =
      ⟨some (now + 300000), some (now + 480000), some (now + 480000),
       some (now + 600000), some (now + 630000), false⟩ := by
  have he : now + 600000 ≠ 0 := by omega
  have hg : getTimeUntilExpiry t now = some 600000 := by
    rw [getTimeUntilExpiry, h]
    show (if now + 600000 = 0 then none else some (now + 600000 - now)) = some 600000
    rw [if_neg he]
    norm_num
  have h2 : isTokenExpired t now = false := by
    rw [isTokenExpired, hg]
    norm_num
  have h3 : startMonitoring defaultConfig t now
      = ⟨some 300000, some 480000, some 600000⟩ := by
    rw [startMonitoring, h2]
    simp only [Bool.false_eq_true, if_false]
    rw [hg]
    norm_num [defaultConfig]
  rw [monitorRun, h3]
  simp only [Option.map_some, if_pos rfl, Option.map]
  rw [updateCountdownFire_eq]
  norm_num [defaultConfig]
  omega

/-- Witness for C2 (amended) at the concrete ten-minute token, now = 0. -/
theorem tenMinuteToken_timeline_witness :
    monitorRun defaultConfig tok600 0 true true =
      ⟨some 300000, some 480000, some 480000, some 600000, some 630000, false⟩ := by
  have h := tenMinuteToken_timeline tok600 0 (by decide) (by decide)
  simpa using h

/-- Counterexample to C2 as stated: for the ten-minute token the claim
demands the expired event published and the expiry callback invoked at
t = 10 min = 600000 ms, but the run publishes no event at all and invokes
the callback only at 630000 ms. -/
theorem tenMinuteToken_no_event_late_callback :
    (monitorRun defaultConfig tok600 0 true true).expiredEventPublished = false ∧
    (monitorRun defaultConfig tok600 0 true true).expiryCallbackAt = some 630000 ∧
    (some 630000 : Option Int) ≠ some 600000 :=
  ⟨by decide, by decide, by decide⟩

/-! ### C4: event delivery -/

/-- Emitter with no registrations. -/
def emptyEmitter : AuthEventEmitter := ⟨[]⟩

/-- Two handlers on the unauthorized kind, the first of which unsubscribes
the second when invoked. -/
def demoBus : AuthEventEmitter :=
  (emptyEmitter.on "unauthorized" ⟨0, [1]⟩).on "unauthorized" ⟨1, []⟩

/-- Two effect-free handlers on the unauthorized kind. -/
def demoBusPure : AuthEventEmitter :=
  (emptyEmitter.on "unauthorized" ⟨0, []⟩).on "unauthorized" ⟨1, []⟩

theorem emit_log_registered (em : AuthEventEmitter) (ev : String) (i : Nat)
    (hi : i ∉ (getKind em ev).map (fun h => h.id)) :
    i ∉ (AuthEventEmitter.emit em ev).2 := by
  intro hmem
  rw [AuthEventEmitter.emit] at hmem
  cases hfind : em.handlers.find? (fun p => p.1 == ev) with
  | none =>
      rw [hfind] at hmem
      simp at hmem
  | some p =>
      rw [hfind] at hmem
      rcases emitSet_log_mem p.2 p.2 [] i hmem with hl | hr
      · simp at hl
      · rw [getKind, hfind] at hi
        exact hi hr

theorem getKind_removeFromKind (l : List (String × List Handler)) (ev : String) (i : Nat) :
    getKind ⟨removeFromKind l ev i⟩ ev
      = (getKind ⟨l⟩ ev).filter (fun x => !(x.id == i)) := by
  induction l with
  | nil => simp [removeFromKind, getKind]
  | cons p rest ih =>
      cases p with
      | mk k hs =>
          by_cases h : k = ev
          · subst h
            have h1 : removeFromKind ((k, hs) :: rest) k i
                = (k, hs.filter (fun x => !(x.id == i))) :: rest := by
              simp [removeFromKind]
            rw [h1, getKind, getKind,
              List.find?_cons_of_pos _ (by simp), List.find?_cons_of_pos _ (by simp)]
          · have h1 : removeFromKind ((k, hs) :: rest) ev i
                = (k, hs) :: removeFromKind rest ev i := by
              simp [removeFromKind, h]
            rw [h1, getKind, getKind,
              List.find?_cons_of_neg _ (by simp [h]), List.find?_cons_of_neg _ (by simp [h])]
            exact ih

/-- C4 (amended): emit invokes the handlers of the published kind in
registration order — each exactly once when no handler mutates the set — and
a handler unsubscribed before publish is never invoked; but the handler set
is iterated live, not snapshotted: a handler that unsubscribes a
not-yet-invoked handler during delivery prevents that handler's invocation in
the same pass, as the two-handler bus shows. -/
theorem emit_live_iteration :
    (∀ (em : AuthEventEmitter) (ev : String),
        (∀ h ∈ getKind em ev, h.unsubs = []) →
        (AuthEventEmitter.emit em ev).2 = (getKind em ev).map (fun h => h.id)) ∧
    (∀ (em : AuthEventEmitter) (ev : String) (i : Nat),
        i ∉ (getKind em ev).map (fun h => h.id) →
        i ∉ (AuthEventEmitter.emit em ev).2) ∧
    (∀ (em : AuthEventEmitter) (ev : String) (i : Nat),
        i ∉ ((AuthEventEmitter.unsubscribe em ev i).emit ev).2) ∧
    (AuthEventEmitter.emit demoBus "unauthorized").2 = [0] := by
  refine ⟨?_, ?_, ?_, by decide⟩
  · intro em ev hpure
    rw [AuthEventEmitter.emit]
    cases hfind : em.handlers.find? (fun p => p.1 == ev) with
    | none =>
        rw [getKind, hfind]
        rfl
    | some p =>
        rw [getKind, hfind] at hpure ⊢
        have h := emitSet_all_present p.2 hpure p.2 [] (fun x hx => hx)
        simp [h]
  · intro em ev i hi
    exact emit_log_registered em ev i hi
  · intro em ev i
    apply emit_log_registered
    rw [AuthEventEmitter.unsubscribe, getKind_removeFromKind]
    simp only [List.mem_map, not_exists]
    rintro x ⟨hx, hxi⟩
    rw [List.mem_filter] at hx
    rw [hxi] at hx
    simpa using hx.2

/-- Witness for C4 (amended): on the two pure handlers of demoBusPure, both
are invoked exactly once, in registration order. -/
theorem emit_live_iteration_witness :
    (AuthEventEmitter.emit demoBusPure "unauthorized").2 = [0, 1] := by
  have h := emit_live_iteration.1 demoBusPure "unauthorized" (by decide)
  simpa using h

/-- Counterexample to C4 as stated: on demoBus, handler 0 unsubscribes
handler 1 during delivery; with a snapshotted handler set both would be
invoked (log [0, 1]) as the claim demands, but the live iteration of the
source invokes only handler 0. -/
theorem emit_no_snapshot :
    (AuthEventEmitter.emit demoBus "unauthorized").2 = [0] ∧
    ([0] : List Nat) ≠ [0, 1] :=
  ⟨by decide, by decide⟩

/-! ### C5: storage fallback and (non-)demotion -/

/-- C5 (amended): no storage operation raises (each is a total function with
the backing-store exceptions caught inside); when the construction-time probe
fails, every subsequent operation works purely on the in-memory map and never
touches the durable store; but — contrary to the original claim — a
post-construction backing-store failure does not demote the adapter: the
availability verdict is computed once, in the constructor, so after such a
failure only that single operation falls back to memory and later operations
address the durable store again. -/
theorem storage_fallback_behaviour :
    (∀ ls, (StorageService.construct ls true).1.isAvailable = false) ∧
    (∀ (s : StorageService) ls fail k, s.isAvailable = false →
        StorageService.getItem s ls fail k = memGetOrNull s.memoryStorage k) ∧
    (∀ (s : StorageService) ls fail k v, s.isAvailable = false →
        StorageService.setItem s ls fail k v
          = ({ s with memoryStorage := memSet s.memoryStorage k v }, ls)) ∧
    (∀ (s : StorageService) ls fail k, s.isAvailable = false →
        StorageService.removeItem s ls fail k
          = ({ s with memoryStorage := memErase s.memoryStorage k }, ls)) ∧
    (∀ (s : StorageService) ls fail, s.isAvailable = false →
        StorageService.clear s ls fail = ({ s with memoryStorage := [] }, ls)) ∧
    (∀ (s : StorageService) ls k v, s.isAvailable = true →
        (StorageService.setItem s ls true k v).1.isAvailable = true ∧
        (StorageService.setItem s ls true k v).2 = ls) := by
  refine ⟨?_, ?_, ?_, ?_, ?_, ?_⟩
  · intro ls
    rfl
  · intro s ls fail k h
    simp [StorageService.getItem, h]
  · intro s ls fail k v h
    simp [StorageService.setItem, h]
  · intro s ls fail k h
    simp [StorageService.removeItem, h]
  · intro s ls fail h
    simp [StorageService.clear, h]
  · intro s ls k v h
    simp [StorageService.setItem, h, localStorageSetItem]

/-- Witness for C5 (amended): a probe-failed adapter serves get purely from
its memory map, and an available adapter hit by a write failure keeps
isAvailable true with the durable store untouched. -/
theorem storage_fallback_behaviour_witness :
    ((StorageService.construct [] true).1.isAvailable = false) ∧
    StorageService.getItem ⟨false, [("a", "b")]⟩ [] false "a" = some "b" ∧
    (StorageService.setItem ⟨true, []⟩ [("x", "y")] true "k" "v").1.isAvailable = true := by
  refine ⟨storage_fallback_behaviour.1 [], ?_, ?_⟩
  · have h := storage_fallback_behaviour.2.1 ⟨false, [("a", "b")]⟩ [] false "a" rfl
    simpa [memGetOrNull, memGet] using h
  · exact (storage_fallback_behaviour.2.2.2.2.2 ⟨true, []⟩ [("x", "y")] "k" "v" rfl).1

/-- Counterexample to C5 as stated: construct over a working durable store,
hit one internal write failure (the value lands in the memory fallback), and
the adapter is not demoted — the very next write goes to the durable store
again, leaving the stale fallback value behind. -/
theorem storage_no_demotion :
    ((StorageService.construct [] false).1.isAvailable = true) ∧
    ((StorageService.setItem (StorageService.construct [] false).1 [] true "k" "v").1.isAvailable
      = true) ∧
    ((StorageService.setItem
        (StorageService.setItem (StorageService.construct [] false).1 [] true "k" "v").1
        (StorageService.setItem (StorageService.construct [] false).1 [] true "k" "v").2
        false "k" "w").2 = [("k", "w")]) ∧
    ((StorageService.setItem
        (StorageService.setItem (StorageService.construct [] false).1 [] true "k" "v").1
        (StorageService.setItem (StorageService.construct [] false).1 [] true "k" "v").2
        false "k" "w").1.memoryStorage = [("k", "v")]) :=
  ⟨by decide, by decide, by decide, by decide⟩

/-! ### C10: empty-string values on the fallback read back as absent -/

/-- C10: on the in-memory fallback, setting a key to the empty string and
reading it back yields the absent result, because the fallback lookup
coerces the JS-falsy empty string to null. -/
theorem fallback_empty_string_reads_none (s : StorageService)
    (ls : List (String × String)) (fail fail2 : Bool) (k : String)
    (h : s.isAvailable = false) :
    StorageService.getItem (StorageService.setItem s ls fail k "").1
      (StorageService.setItem s ls fail k "").2 fail2 k = none := by
  simp [StorageService.setItem, h, StorageService.getItem, memGetOrNull, memGet_memSet]

/-- Witness for C10 at a concrete fallback adapter. -/
theorem fallback_empty_string_reads_none_witness :
    StorageService.getItem (StorageService.setItem ⟨false, []⟩ [] false "auth_token" "").1
      (StorageService.setItem ⟨false, []⟩ [] false "auth_token" "").2 false "auth_token"
      = none :=
  fallback_empty_string_reads_none ⟨false, []⟩ [] false false "auth_token" rfl

/-! ### C7: 401 responses clear the credential, publish, and re-reject -/

/-- C7: on any response error whose status is 401, the interceptor removes
auth_token through the storage adapter (a subsequent read finds nothing),
emits unauthorized — invoking exactly what a direct emit on the same bus
would invoke — and returns Promise.reject with the original error object
unchanged, so the caller still observes the same failure. -/
theorem unauthorized_clears_token_and_propagates (e : AxiosError)
    (svc : StorageService) (ls : List (String × String)) (bus : AuthEventEmitter)
    (h : e.status = some 401) :
    (responseInterceptorOnError e svc ls false bus).propagated = e ∧
    StorageService.getItem (responseInterceptorOnError e svc ls false bus).svc
      (responseInterceptorOnError e svc ls false bus).ls false "auth_token" = none ∧
    (responseInterceptorOnError e svc ls false bus).invoked
      = (AuthEventEmitter.emit bus "unauthorized").2 := by
  have hr : responseInterceptorOnError e svc ls false bus
      = { svc := (StorageService.removeItem svc ls false "auth_token").1
          ls := (StorageService.removeItem svc ls false "auth_token").2
          bus := (AuthEventEmitter.emit bus "unauthorized").1
          invoked := (AuthEventEmitter.emit bus "unauthorized").2
          propagated := e } := by
    rw [responseInterceptorOnError, if_pos h]
  rw [hr]
  exact ⟨rfl, getItem_after_removeItem svc ls "auth_token", rfl⟩

/-- Witness for C7 at a concrete 401 error, an available store holding a
token, and one unauthorized subscriber. -/
theorem unauthorized_clears_token_and_propagates_witness :
    (responseInterceptorOnError ⟨some 401, "Request failed with status code 401"⟩
        ⟨true, []⟩ [("auth_token", "tok")] false
        (emptyEmitter.on "unauthorized" ⟨7, []⟩)).propagated
      = ⟨some 401, "Request failed with status code 401"⟩ ∧
    StorageService.getItem
      (responseInterceptorOnError ⟨some 401, "Request failed with status code 401"⟩
        ⟨true, []⟩ [("auth_token", "tok")] false
        (emptyEmitter.on "unauthorized" ⟨7, []⟩)).svc
      (responseInterceptorOnError ⟨some 401, "Request failed with status code 401"⟩
        ⟨true, []⟩ [("auth_token", "tok")] false
        (emptyEmitter.on "unauthorized" ⟨7, []⟩)).ls false "auth_token" = none ∧
    (responseInterceptorOnError ⟨some 401, "Request failed with status code 401"⟩
        ⟨true, []⟩ [("auth_token", "tok")] false
        (emptyEmitter.on "unauthorized" ⟨7, []⟩)).invoked
      = (AuthEventEmitter.emit (emptyEmitter.on "unauthorized" ⟨7, []⟩) "unauthorized").2 :=
  unauthorized_clears_token_and_propagates ⟨some 401, "Request failed with status code 401"⟩
    ⟨true, []⟩ [("auth_token", "tok")] (emptyEmitter.on "unauthorized" ⟨7, []⟩) rfl

/-! ### C1, C6, C8: the optimistic upvote handler -/

/-- Initial cache entry for the concrete runs. -/
def fb1 : Feedback := ⟨1, "first item", 0, false⟩

/-- Server response committing the first toggle (vote added). -/
def respUp : UpvoteResponse := ⟨1, 1, true, "Feedback upvoted"⟩

/-- Server response committing the second toggle (vote removed again). -/
def respDown : UpvoteResponse := ⟨1, 0, false, "Upvote removed"⟩

/-- C1 (amended): there is no generation check — each settling response
overwrites the entry in arrival order, so when the two responses arrive in
reverse order the final cached state equals the server's response to the
FIRST toggle (the last arrival), not the second as claimed. -/
theorem upvote_race_last_arrival_wins (cache : List Feedback) (id : Nat)
    (respFirst respSecond : UpvoteResponse) (out : List Feedback × String)
    (h : raceRun cache id respFirst respSecond = some out) :
    ∀ f ∈ out.1, f.id = id →
      f.upvotes = respFirst.upvotes ∧ f.has_upvoted = respFirst.has_upvoted := by
  intro f hf hid
  rw [raceRun] at h
  split at h
  · simp at h
  · rename_i snapA c1 e1 heq1
    split at h
    · simp at h
    · rename_i snapB c2 e2 heq2
      simp only [Option.some.injEq] at h
      rw [← h] at hf
      exact mem_settle_ok snapA id respFirst _ _ f hf hid

/-- Witness for C1 (amended) on the concrete race run. -/
theorem upvote_race_last_arrival_wins_witness :
    ({ fb1 with upvotes := 1, has_upvoted := true } : Feedback).upvotes = respUp.upvotes ∧
    ({ fb1 with upvotes := 1, has_upvoted := true } : Feedback).has_upvoted
      = respUp.has_upvoted :=
  upvote_race_last_arrival_wins [fb1] 1 respUp respDown
    ([{ fb1 with upvotes := 1, has_upvoted := true }], "") (by decide)
    { fb1 with upvotes := 1, has_upvoted := true } (by decide) rfl

/-- Counterexample to C1 as stated: two toggles on entity 1, the second
toggle's authoritative response (0 votes, not voted) arriving first and the
first toggle's (1 vote, voted) arriving last; the final cache equals the
first toggle's response, not the second's. -/
theorem upvote_race_first_response_wins :
    raceRun [fb1] 1 respUp respDown
      = some ([{ fb1 with upvotes := 1, has_upvoted := true }], "") ∧
    ({ fb1 with upvotes := 1, has_upvoted := true } : Feedback)
      ≠ { fb1 with upvotes := 0, has_upvoted := false } :=
  ⟨by decide, by decide⟩

/-- C6 (amended): the promise returned by handleUpvoteFeedback always
resolves — there is no reject path at all; an unknown entity id causes an
immediate resolution with cache and error banner unchanged, and a mutation
failure on a known id is surfaced through the error banner instead of a
rejection. -/
theorem upvote_promise_never_rejects :
    (∀ (cache : List Feedback) (err : String) (id : Nat)
        (result : Except Unit UpvoteResponse),
        (handleUpvoteFeedback cache err id result).rejected = false) ∧
    (∀ (cache : List Feedback) (err : String) (id : Nat)
        (result : Except Unit UpvoteResponse),
        cache.find? (fun f => f.id == id) = none →
        handleUpvoteFeedback cache err id result = ⟨cache, err, false⟩) ∧
    (∀ (cache : List Feedback) (err : String) (id : Nat) (t : Feedback),
        cache.find? (fun f => f.id == id) = some t →
        (handleUpvoteFeedback cache err id (Except.error ())).error
          = "Failed to upvote feedback. Please try again.") := by
  refine ⟨?_, ?_, ?_⟩
  · intro cache err id result
    rw [handleUpvoteFeedback]
    cases h : upvoteStart cache id with
    | none => rfl
    | some p =>
        obtain ⟨t, c, e⟩ := p
        rfl
  · intro cache err id result hfind
    rw [handleUpvoteFeedback, upvoteStart, hfind]
  · intro cache err id t hfind
    rw [handleUpvoteFeedback, upvoteStart, hfind]
    rfl

/-- Witness for C6 (amended): unknown id 5 over an empty cache resolves as a
no-op, and a failed mutation on the known entity sets the error banner. -/
theorem upvote_promise_never_rejects_witness :
    handleUpvoteFeedback [] "" 5 (Except.error ()) = ⟨[], "", false⟩ ∧
    (handleUpvoteFeedback [fb1] "" 1 (Except.error ())).error
      = "Failed to upvote feedback. Please try again." :=
  ⟨upvote_promise_never_rejects.2.1 [] "" 5 (Except.error ()) (by decide),
   upvote_promise_never_rejects.2.2 [fb1] "" 1 fb1 (by decide)⟩

/-- Counterexample to C6 as stated: with no entity of id 5 known, the claim
demands a rejected promise, but the call resolves (rejected = false) leaving
everything unchanged. -/
theorem upvote_unknown_id_resolves :
    ([] : List Feedback).find? (fun f => f.id == 5) = none ∧
    (handleUpvoteFeedback [] "" 5 (Except.error ())).rejected = false ∧
    handleUpvoteFeedback [] "" 5 (Except.error ()) = ⟨[], "", false⟩ :=
  ⟨by decide, by decide, by decide⟩

/-- C8: when the mutation request fails and no other mutation has touched the
entity, every cache entry with the target id ends with exactly the
pre-mutation snapshot's vote count and voted flag (the rollback restores the
closure snapshot taken before the optimistic write). -/
theorem upvote_rollback_restores_snapshot (cache : List Feedback) (err : String)
    (id : Nat) (t : Feedback) (h : cache.find? (fun f => f.id == id) = some t) :
    ∀ f ∈ (handleUpvoteFeedback cache err id (Except.error ())).feedbacks,
      f.id = id → f.upvotes = t.upvotes ∧ f.has_upvoted = t.has_upvoted := by
  intro f hf hid
  rw [handleUpvoteFeedback, upvoteStart, h] at hf
  exact mem_settle_error t id
    (cache.map (fun feedback =>
      if feedback.id == id then
        { feedback with
            upvotes := if t.has_upvoted then t.upvotes - 1 else t.upvotes + 1,
            has_upvoted := !t.has_upvoted }
      else feedback)) "" f hf hid

/-- Witness for C8: the failed toggle on the concrete entity rolls the cache
back to the original snapshot values. -/
theorem upvote_rollback_restores_snapshot_witness :
    (fb1.upvotes = fb1.upvotes ∧ fb1.has_upvoted = fb1.has_upvoted) ∧
    (handleUpvoteFeedback [fb1] "" 1 (Except.error ())).feedbacks = [fb1] :=
  ⟨upvote_rollback_restores_snapshot [fb1] "" 1 fb1 (by decide) fb1 (by decide) rfl,
   by decide⟩
